import Mathlib

/-
Verification development for the gcpyreport repository (report.py, seatreport.py).

The two Python source files are shallowly embedded below:
  * pandas timestamps become `PDate` (either NaT or a calendar date plus hour),
  * IEEE-754 float results of rate computations become `RatF`
    (an exact rational extended with +inf, -inf and NaN),
  * pandas cells become `Cell`, DataFrames become `DataFrame`
    (an explicit column list plus row-major cell lists),
  * `pd.DataFrame(list_of_dicts)` becomes `mkDataFrame`, which takes the
    union of the dict keys in order of first appearance and fills missing
    cells with NaN, exactly as pandas does,
  * exceptions raised by the Python code become `Except String` results.
-/

set_option autoImplicit false

namespace Gcpy

/-- A pandas timestamp: either `NaT` (missing) or year/month/day plus an
hour-of-day component (the only time component the code ever reads, via
`dt.hour`). -/
inductive PDate where
  | nat : PDate
  | dt (y m d hh : Nat) : PDate
  deriving DecidableEq, Repr

/-- Split a character list on a separator character. -/
def splitOnChar (sep : Char) : List Char → List (List Char)
  | [] => [[]]
  | x :: xs =>
      match splitOnChar sep xs with
      | [] => [[]]
      | g :: gs => if x = sep then [] :: g :: gs else (x :: g) :: gs

/-- The numeric value of a non-empty all-digit character group. -/
def digitsVal (l : List Char) : Option Nat :=
  if l ≠ [] ∧ l.all Char.isDigit then
    some (l.foldl (fun n c => 10 * n + (c.toNat - 48)) 0)
  else Option.none

/-- Parse a `YYYY-MM-DD` date component, modelling the ISO-8601 date parsing
performed by `pd.to_datetime` / `dateutil`. -/
def parseYMD (l : List Char) : Option (Nat × Nat × Nat) :=
  match splitOnChar '-' l with
  | [y, m, d] => do
      let yn ← digitsVal y
      let mn ← digitsVal m
      let dn ← digitsVal d
      if 1 ≤ mn ∧ mn ≤ 12 ∧ 1 ≤ dn ∧ dn ≤ 31 then some (yn, mn, dn) else Option.none
  | _ => Option.none

/-- Drop a trailing `Z` timezone marker from a time group. -/
def trimZ (l : List Char) : List Char :=
  if l.getLast? = some 'Z' then l.dropLast else l

/-- Parse an `HH:MM:SS` or `HH:MM:SSZ` time component, keeping the hour. -/
def parseHour (l : List Char) : Option Nat :=
  match splitOnChar ':' l with
  | [h, m, rest] => do
      let hn ← digitsVal h
      let _ ← digitsVal m
      let _ ← digitsVal (trimZ rest)
      if hn ≤ 23 then some hn else Option.none
  | _ => Option.none

/-- Parse an ISO-8601 date or date-time string, modelling `pd.to_datetime`
on a string argument: an unparseable string raises. -/
def parseDateTime (s : String) : Except String PDate :=
  match splitOnChar 'T' s.toList with
  | [d] =>
      match parseYMD d with
      | some (y, m, dd) => .ok (.dt y m dd 0)
      | Option.none => .error ("could not parse date " ++ s)
  | [d, t] =>
      match parseYMD d, parseHour t with
      | some (y, m, dd), some h => .ok (.dt y m dd h)
      | _, _ => .error ("could not parse date " ++ s)
  | _ => .error ("could not parse date " ++ s)

/-- Decidable equality of exception results, so that concrete runs of the
embedded pipelines can be checked by evaluation. -/
instance instDecEqExcept {ε α : Type} [DecidableEq ε] [DecidableEq α] :
    DecidableEq (Except ε α)
  | .error a, .error b =>
      if h : a = b then .isTrue (by rw [h]) else .isFalse (fun hh => h (by injection hh))
  | .error _, .ok _ => .isFalse (fun hh => Except.noConfusion hh)
  | .ok _, .error _ => .isFalse (fun hh => Except.noConfusion hh)
  | .ok a, .ok b =>
      if h : a = b then .isTrue (by rw [h]) else .isFalse (fun hh => h (by injection hh))

/-- `pd.to_datetime` applied to `entry.get('date')` in `flatten_data`
(report.py line 31): `None` (absent key) yields `NaT`; an unparseable
string raises. -/
def to_datetime : Option String → Except String PDate
  | none => .ok .nat
  | some s => parseDateTime s

/-- The value class of an IEEE-754 float produced by the rate computations:
an exact rational, positive infinity, negative infinity, or NaN.  Division
and multiplication below follow numpy float semantics, which is what pandas
uses for `series / series * 100`. -/
inductive RatF where
  | num : ℚ → RatF
  | inf : RatF
  | ninf : RatF
  | nan : RatF
  deriving DecidableEq, Repr

/-- numpy float division: `x / 0` is `+inf`, `-inf` or `NaN` according to the
sign of `x`; NaN and infinities propagate as in IEEE-754. -/
def ratDiv : RatF → RatF → RatF
  | .num a, .num b =>
      if b = 0 then
        if a > 0 then .inf else if a < 0 then .ninf else .nan
      else .num (a / b)
  | .nan, _ => .nan
  | _, .nan => .nan
  | .inf, .num b => if b < 0 then .ninf else .inf
  | .ninf, .num b => if b < 0 then .inf else .ninf
  | _, _ => .nan

/-- numpy float multiplication by a rational constant. -/
def ratMulQ : RatF → ℚ → RatF
  | .num a, c => .num (a * c)
  | .inf, c => if c > 0 then .inf else if c < 0 then .ninf else .nan
  | .ninf, c => if c > 0 then .ninf else if c < 0 then .inf else .nan
  | .nan, _ => .nan

/-- numpy float addition, used by the pandas `sum`/`mean` aggregations. -/
def ratAdd : RatF → RatF → RatF
  | .nan, _ => .nan
  | _, .nan => .nan
  | .num a, .num b => .num (a + b)
  | .inf, .ninf => .nan
  | .ninf, .inf => .nan
  | .inf, _ => .inf
  | _, .inf => .inf
  | .ninf, _ => .ninf
  | _, .ninf => .ninf

/-- Sum of a list of float values, starting from `0.0` as pandas does. -/
def ratSum (xs : List RatF) : RatF :=
  xs.foldl ratAdd (.num 0)

/-- pandas `Series.mean()` with the default `skipna=True`: NaN entries are
dropped from both the sum and the count; the mean of an all-NaN (or empty)
series is NaN.  Infinities are NOT dropped: they stay in the sum and count. -/
def meanSkipNA (xs : List RatF) : RatF :=
  let ys := xs.filter (fun x => x ≠ RatF.nan)
  if ys.length = 0 then .nan
  else ratDiv (ratSum ys) (.num ys.length)

/-- A simple JSON scalar stored inside a nested object cell (team / assignee
objects only carry strings and integers). -/
inductive SVal where
  | s : String → SVal
  | i : Int → SVal
  deriving DecidableEq, Repr

/-- A pandas DataFrame cell.  `none` is Python `None` (JSON null), `nan` is
the float NaN pandas inserts for a missing key, `obj` is a nested JSON
object kept as a Python dict inside the cell. -/
inductive Cell where
  | str : String → Cell
  | int : Int → Cell
  | bool : Bool → Cell
  | date : PDate → Cell
  | rat : RatF → Cell
  | none : Cell
  | nan : Cell
  | obj : List (String × SVal) → Cell
  deriving DecidableEq, Repr

/-- A DataFrame: an ordered column list and row-major cells; every row of a
well-formed frame has exactly one cell per column. -/
structure DataFrame where
  columns : List String
  rows : List (List Cell)
  deriving DecidableEq, Repr

/-- A row dict before frame construction: ordered key/value pairs. -/
abbrev RowDict := List (String × Cell)

/-- Ordered union of the keys of a list of dicts (order of first
appearance), as `pd.DataFrame(list_of_dicts)` computes its columns. -/
def unionKeys (rds : List RowDict) : List String :=
  rds.foldl (fun acc rd =>
    rd.foldl (fun a kv => if a.contains kv.1 then a else a ++ [kv.1]) acc) []

/-- Look a key up in a row dict; a missing key becomes pandas NaN. -/
def lookupCell (rd : RowDict) (k : String) : Cell :=
  match rd.find? (fun kv => kv.1 = k) with
  | some kv => kv.2
  | Option.none => Cell.nan

/-- `pd.DataFrame(list_of_dicts)`: columns are the ordered key union, each
row is aligned to the columns with NaN for missing keys.  An empty list
yields a frame with no rows AND no columns. -/
def mkDataFrame (rds : List RowDict) : DataFrame :=
  let cols := unionKeys rds
  ⟨cols, rds.map (fun rd => cols.map (lookupCell rd))⟩

/-- Index of a column name, `df.columns.get_loc` style. -/
def colIdx (df : DataFrame) (c : String) : Option Nat :=
  df.columns.findIdx? (fun x => x = c)

/-- The cell of row `r` in column `c` of `df` (NaN when the column is
absent; the callers below only use it on present columns). -/
def rowCell (df : DataFrame) (r : List Cell) (c : String) : Cell :=
  match colIdx df c with
  | some i => r.getD i Cell.nan
  | Option.none => Cell.nan

/-- `df[c]` as a cell list; raises `KeyError` when the column is absent,
as pandas column subscripting does. -/
def getColCells (df : DataFrame) (c : String) : Except String (List Cell) :=
  match colIdx df c with
  | some i => .ok (df.rows.map (fun r => r.getD i Cell.nan))
  | Option.none => .error ("KeyError: " ++ c)

/-- `df[c] = cells`: replace the column when it exists, otherwise append it
on the right, extending every row. -/
def setCol (df : DataFrame) (c : String) (cells : List Cell) : DataFrame :=
  match colIdx df c with
  | some i => ⟨df.columns, (df.rows.zip cells).map (fun rc => rc.1.set i rc.2)⟩
  | Option.none => ⟨df.columns ++ [c], (df.rows.zip cells).map (fun rc => rc.1 ++ [rc.2])⟩

/-! ### Usage-metrics input model (report.py)

A `UsageRecord` mirrors one entry of the usage JSON array.  `Option` models
key absence: `entry.get(k, d)` becomes `field.getD d`. -/

/-- A language block inside a completions model block. -/
structure LangBlock where
  name : Option String := Option.none
  total_engaged_users : Option Int := Option.none
  total_code_acceptances : Option Int := Option.none
  total_code_suggestions : Option Int := Option.none
  total_code_lines_accepted : Option Int := Option.none
  total_code_lines_suggested : Option Int := Option.none
  deriving DecidableEq, Repr

/-- A model block inside an editor block (chat fields or a languages list). -/
structure ModelBlock where
  name : Option String := Option.none
  is_custom_model : Option Bool := Option.none
  total_chats : Option Int := Option.none
  total_engaged_users : Option Int := Option.none
  total_chat_copy_events : Option Int := Option.none
  total_chat_insertion_events : Option Int := Option.none
  languages : Option (List LangBlock) := Option.none
  deriving DecidableEq, Repr

/-- An editor block: a name and a models list. -/
structure EditorBlock where
  name : Option String := Option.none
  models : Option (List ModelBlock) := Option.none
  deriving DecidableEq, Repr

/-- A feature block (`copilot_ide_chat`, `copilot_ide_code_completions`,
`copilot_dotcom_chat`, `copilot_dotcom_pull_requests`). -/
structure FeatureBlock where
  total_engaged_users : Option Int := Option.none
  editors : Option (List EditorBlock) := Option.none
  deriving DecidableEq, Repr

/-- One daily usage record of the input JSON array. -/
structure UsageRecord where
  date : Option String := Option.none
  total_active_users : Option Int := Option.none
  total_engaged_users : Option Int := Option.none
  copilot_ide_chat : Option FeatureBlock := Option.none
  copilot_ide_code_completions : Option FeatureBlock := Option.none
  copilot_dotcom_chat : Option FeatureBlock := Option.none
  copilot_dotcom_pull_requests : Option FeatureBlock := Option.none
  deriving DecidableEq, Repr

/-- The empty dict `{}` used as the default for a missing feature block. -/
def emptyFB : FeatureBlock := {}

/-- `entry.get('name')` with no default: a missing string key yields
Python `None`. -/
def cellOfOptStr : Option String → Cell
  | some s => Cell.str s
  | Option.none => Cell.none

/-- The chat row dicts one record appends to `ide_chat_data`
(report.py lines 36-49): one dict per (editor, model) pair. -/
def chatRows (date : PDate) (entry : UsageRecord) : List RowDict :=
  let ide_chat := entry.copilot_ide_chat.getD emptyFB
  (ide_chat.editors.getD []).flatMap (fun editor =>
    (editor.models.getD []).map (fun model =>
      [("date", Cell.date date),
       ("editor", cellOfOptStr editor.name),
       ("model", cellOfOptStr model.name),
       ("is_custom_model", Cell.bool (model.is_custom_model.getD false)),
       ("total_chats", Cell.int (model.total_chats.getD 0)),
       ("total_engaged_users", Cell.int (model.total_engaged_users.getD 0)),
       ("total_chat_copy_events", Cell.int (model.total_chat_copy_events.getD 0)),
       ("total_chat_insertion_events", Cell.int (model.total_chat_insertion_events.getD 0))]))

/-- The completion row dicts one record appends to `code_completion_data`
(report.py lines 52-70): one dict per (editor, model, language) triple. -/
def compRows (date : PDate) (entry : UsageRecord) : List RowDict :=
  let ide_code := entry.copilot_ide_code_completions.getD emptyFB
  (ide_code.editors.getD []).flatMap (fun editor =>
    (editor.models.getD []).flatMap (fun model =>
      (model.languages.getD []).map (fun lang =>
        [("date", Cell.date date),
         ("editor", cellOfOptStr editor.name),
         ("model", cellOfOptStr model.name),
         ("is_custom_model", Cell.bool (model.is_custom_model.getD false)),
         ("language", cellOfOptStr lang.name),
         ("total_engaged_users", Cell.int (lang.total_engaged_users.getD 0)),
         ("total_code_acceptances", Cell.int (lang.total_code_acceptances.getD 0)),
         ("total_code_suggestions", Cell.int (lang.total_code_suggestions.getD 0)),
         ("total_code_lines_accepted", Cell.int (lang.total_code_lines_accepted.getD 0)),
         ("total_code_lines_suggested", Cell.int (lang.total_code_lines_suggested.getD 0))])))

/-- The daily-summary row dict one record appends to `rows`
(report.py lines 72-80). -/
def summaryRow (date : PDate) (entry : UsageRecord) : RowDict :=
  [("date", Cell.date date),
   ("total_active_users", Cell.int (entry.total_active_users.getD 0)),
   ("total_engaged_users", Cell.int (entry.total_engaged_users.getD 0)),
   ("copilot_ide_chat.total_engaged_users",
      Cell.int ((entry.copilot_ide_chat.getD emptyFB).total_engaged_users.getD 0)),
   ("copilot_ide_code_completions.total_engaged_users",
      Cell.int ((entry.copilot_ide_code_completions.getD emptyFB).total_engaged_users.getD 0)),
   ("copilot_dotcom_chat.total_engaged_users",
      Cell.int ((entry.copilot_dotcom_chat.getD emptyFB).total_engaged_users.getD 0)),
   ("copilot_dotcom_pull_requests.total_engaged_users",
      Cell.int ((entry.copilot_dotcom_pull_requests.getD emptyFB).total_engaged_users.getD 0))]

/-- One loop iteration of `flatten_data` (report.py lines 30-80): parse the
date (which can raise), then produce the record's summary dict, chat dicts
and completion dicts. -/
def flattenRecord (entry : UsageRecord) :
    Except String (RowDict × List RowDict × List RowDict) := do
  let date ← to_datetime entry.date
  pure (summaryRow date entry, chatRows date entry, compRows date entry)

/-- The whole loop of `flatten_data`: iterate over the records in order,
propagating the first date-parsing exception (the loop aborts there and the
function returns nothing). -/
def flattenRecords : List UsageRecord →
    Except String (List (RowDict × List RowDict × List RowDict))
  | [] => .ok []
  | r :: rs => do
      let t ← flattenRecord r
      let ts ← flattenRecords rs
      pure (t :: ts)

/-- `flatten_data(data)` (report.py lines 26-85): iterate over the records,
accumulating summary / chat / completion row dicts in input order, then build
the three DataFrames from the accumulated dict lists. -/
def flatten_data (data : List UsageRecord) :
    Except String (DataFrame × DataFrame × DataFrame) := do
  let per ← flattenRecords data
  pure (mkDataFrame (per.map (fun t => t.1)),
        mkDataFrame (per.flatMap (fun t => t.2.1)),
        mkDataFrame (per.flatMap (fun t => t.2.2)))

/-- `process_data(data)` of report.py (line 87) just delegates. -/
def usage_process_data (data : List UsageRecord) :
    Except String (DataFrame × DataFrame × DataFrame) :=
  flatten_data data

/-! ### create_visualizations table effects (report.py lines 91-149)

The figures themselves are out of scope; what is embedded is the effect of
`create_visualizations` on the three DataFrames it receives, since it
assigns new columns into them in place.  The post-state of the three frames
is returned explicitly. -/

/-- `pd.to_datetime(x, errors='coerce')` on one cell: datetimes pass
through, parseable strings parse, everything else becomes `NaT`. -/
def to_datetime_coerce : Cell → Cell
  | .date d => .date d
  | .str s => match parseDateTime s with
      | .ok d => .date d
      | .error _ => .date .nat
  | _ => .date .nat

/-- Lines 93-98: `df['date'] = pd.to_datetime(df['date'], errors='coerce')`
guarded by `if 'date' in df.columns`. -/
def coerceDateCol (df : DataFrame) : DataFrame :=
  match colIdx df "date" with
  | some i => ⟨df.columns, df.rows.map (fun r => r.set i (to_datetime_coerce (r.getD i Cell.nan)))⟩
  | Option.none => df

/-- Numeric value of a cell in float arithmetic: ints are exact, a float
cell keeps its class, anything else is NaN. -/
def ratOfCell : Cell → RatF
  | .int n => .num n
  | .rat q => q
  | .bool b => .num (if b then 1 else 0)
  | _ => .nan

/-- The per-row acceptance-rate value of report.py lines 118-119:
`total_code_acceptances / total_code_suggestions * 100` in float
arithmetic. -/
def accRateVal (acc sugg : Cell) : RatF :=
  ratMulQ (ratDiv (ratOfCell acc) (ratOfCell sugg)) 100

/-- Lines 118-119: assign the new `acceptance_rate` column into the
completion frame. -/
def add_acceptance_rate (df : DataFrame) : DataFrame :=
  setCol df "acceptance_rate"
    (df.rows.map (fun r =>
      Cell.rat (accRateVal (rowCell df r "total_code_acceptances")
                           (rowCell df r "total_code_suggestions"))))

/-- Zeller's congruence: 0 = Saturday, 1 = Sunday, 2 = Monday, ... -/
def weekdayIdx (y m d : Nat) : Nat :=
  let y' := if m ≤ 2 then y - 1 else y
  let m' := if m ≤ 2 then m + 12 else m
  let K := y' % 100
  let J := y' / 100
  (d + (13 * (m' + 1)) / 5 + K + K / 4 + J / 4 + 5 * J) % 7

/-- English weekday name for a Zeller index, as `dt.day_name()` yields. -/
def weekdayName (h : Nat) : String :=
  match h with
  | 0 => "Saturday"
  | 1 => "Sunday"
  | 2 => "Monday"
  | 3 => "Tuesday"
  | 4 => "Wednesday"
  | 5 => "Thursday"
  | _ => "Friday"

/-- `series.dt.day_name()` on one cell (`NaN` for `NaT`). -/
def dayNameCell : Cell → Cell
  | .date (.dt y m d _) => Cell.str (weekdayName (weekdayIdx y m d))
  | _ => Cell.nan

/-- `series.dt.hour` on one cell (`NaN` for `NaT`). -/
def hourCell : Cell → Cell
  | .date (.dt _ _ _ h) => Cell.int h
  | _ => Cell.nan

/-- Lines 136-137: assign the `day_of_week` and `hour` columns into the
summary frame. -/
def add_heatmap_cols (df : DataFrame) : DataFrame :=
  let df1 := setCol df "day_of_week"
    (df.rows.map (fun r => dayNameCell (rowCell df r "date")))
  setCol df1 "hour" (df1.rows.map (fun r => hourCell (rowCell df1 r "date")))

/-- The table effect of `create_visualizations(df, ide_chat_df,
code_completion_df)`: coerce the date columns (lines 93-98), add the
acceptance-rate column to the completion frame (lines 118-119), add the
heatmap columns to the summary frame (lines 136-137).  Returns the
post-state of (summary, chat, completion). -/
def create_visualizations (df chat comp : DataFrame) :
    DataFrame × DataFrame × DataFrame :=
  let df := coerceDateCol df
  let chat := coerceDateCol chat
  let comp := coerceDateCol comp
  let comp := add_acceptance_rate comp
  let df := add_heatmap_cols df
  (df, chat, comp)

/-! ### Aggregation layer: group-by sums, total rows, grouped means -/

/-- String content of a categorical cell. -/
def cellStr : Cell → String
  | .str s => s
  | _ => ""

/-- Integer content of a numeric cell. -/
def cellInt : Cell → Int
  | .int n => n
  | .bool b => if b then 1 else 0
  | _ => 0

/-- Distinct values of a string list in order of first appearance. -/
def distinctStrs (l : List String) : List String :=
  l.foldl (fun a k => if a.contains k then a else a ++ [k]) []

/-- Lexicographic comparison of character lists by code point. -/
def charListLe : List Char → List Char → Bool
  | [], _ => true
  | _ :: _, [] => false
  | a :: as, b :: bs =>
      if a.toNat < b.toNat then true
      else if b.toNat < a.toNat then false
      else charListLe as bs

/-- Lexicographic string order, the order pandas sorts group keys in. -/
def strLe (a b : String) : Bool := charListLe a.toList b.toList

/-- Insert into a sorted string list. -/
def insertSorted (s : String) : List String → List String
  | [] => [s]
  | t :: ts => if strLe s t then s :: t :: ts else t :: insertSorted s ts

/-- Insertion sort on strings: pandas `groupby` sorts group keys. -/
def sortStrs (l : List String) : List String :=
  l.foldr insertSorted []

/-- Rows of `df` whose `key` column holds the string `k`. -/
def rowsWithKey (df : DataFrame) (key k : String) : List (List Cell) :=
  df.rows.filter (fun r => rowCell df r key = Cell.str k)

/-- Column-wise integer sum of one column over a list of rows. -/
def sumColOver (df : DataFrame) (rows : List (List Cell)) (c : String) : Int :=
  (rows.map (fun r => cellInt (rowCell df r c))).foldl (· + ·) 0

/-- `df.groupby(key).agg({c: 'sum' for c in numCols}).reset_index()`
(report.py lines 277-282 and 299-304): one row per distinct key, in sorted
key order, holding the sums of the numeric columns over that key's rows. -/
def agg_sum_by (df : DataFrame) (key : String) (numCols : List String) : DataFrame :=
  let ks := sortStrs (distinctStrs (df.rows.map (fun r => cellStr (rowCell df r key))))
  ⟨key :: numCols,
   ks.map (fun k =>
     Cell.str k :: numCols.map (fun c => Cell.int (sumColOver df (rowsWithKey df key k) c)))⟩

/-- Integer sum of a whole column of `df` (`df[c].sum()`). -/
def intColSum (df : DataFrame) (c : String) : Int :=
  sumColOver df df.rows c

/-- The synthetic total row (report.py lines 285-291 and 307-313): sentinel
`"TOTAL"` in the categorical column, column-wise sums of the grouped frame
in the numeric columns. -/
def totalRowOf (g : DataFrame) (numCols : List String) : List Cell :=
  Cell.str "TOTAL" :: numCols.map (fun c => Cell.int (intColSum g c))

/-- `pd.concat([metrics, total_row], ignore_index=True)` (lines 294 and
316): append the total row after the grouped rows. -/
def add_total_row (g : DataFrame) (numCols : List String) : DataFrame :=
  ⟨g.columns, g.rows ++ [totalRowOf g numCols]⟩

/-- The group-by-with-total-row operation: group and sum, then append the
sentinel total row computed from the grouped rows. -/
def group_with_total (df : DataFrame) (key : String) (numCols : List String) : DataFrame :=
  add_total_row (agg_sum_by df key numCols) numCols

/-- `ide_chat_metrics` of report.py lines 277-294. -/
def ide_chat_metrics (chat : DataFrame) : DataFrame :=
  group_with_total chat "editor"
    ["total_chats", "total_engaged_users", "total_chat_copy_events",
     "total_chat_insertion_events"]

/-- `code_completion_metrics` of report.py lines 299-316. -/
def code_completion_metrics (comp : DataFrame) : DataFrame :=
  group_with_total comp "language"
    ["total_code_suggestions", "total_code_acceptances",
     "total_code_lines_suggested", "total_code_lines_accepted"]

/-- `df.groupby('language')['acceptance_rate'].mean()` (report.py line 120):
per sorted language, the NaN-skipping mean of the acceptance-rate floats. -/
def acceptance_rate_by_language (df : DataFrame) : List (String × RatF) :=
  let ks := sortStrs (distinctStrs (df.rows.map (fun r => cellStr (rowCell df r "language"))))
  ks.map (fun k =>
    (k, meanSkipNA ((rowsWithKey df "language" k).map
          (fun r => ratOfCell (rowCell df r "acceptance_rate")))))

/-! ### Date-range filter (report.py lines 209-211) -/

/-- Timestamp comparison: any comparison against `NaT` is false; otherwise
lexicographic on (year, month, day, hour). -/
def pdLe : PDate → PDate → Bool
  | .nat, _ => false
  | _, .nat => false
  | .dt y m d h, .dt y' m' d' h' =>
      if y ≠ y' then y < y'
      else if m ≠ m' then m < m'
      else if d ≠ d' then d < d'
      else h ≤ h'

/-- The boolean mask `(date >= start) & (date <= end)` on one date cell. -/
def dateInRange (s e : PDate) : Cell → Bool
  | .date d => pdLe s d && pdLe d e
  | _ => false

/-- `df[(df['date'] >= start_date) & (df['date'] <= end_date)]`: keep the
rows whose date cell lies in the inclusive range. -/
def filter_by_date (df : DataFrame) (s e : PDate) : DataFrame :=
  ⟨df.columns, df.rows.filter (fun r => dateInRange s e (rowCell df r "date"))⟩

/-- Report.py lines 209-211: the same bounds are applied to all three usage
frames. -/
def filter_usage_tables (t : DataFrame × DataFrame × DataFrame) (s e : PDate) :
    DataFrame × DataFrame × DataFrame :=
  (filter_by_date t.1 s e, filter_by_date t.2.1 s e, filter_by_date t.2.2 s e)

/-! ### Seat pipeline (seatreport.py) -/

/-- The seat payload: a root object with an optional `seats` array (each
seat a JSON object, embedded as an ordered key/cell dict) and an optional
`total_seats` integer. -/
structure SeatPayload where
  total_seats : Option Int := Option.none
  seats : Option (List RowDict) := Option.none

/-- Python truthiness of a cell value: `None`, `0`, `0.0`, `""` and empty
containers are falsy; note that float NaN is TRUTHY in Python. -/
def cellTruthy : Cell → Bool
  | .str s => s ≠ ""
  | .int n => n ≠ 0
  | .bool b => b
  | .none => false
  | .nan => true
  | .obj kvs => kvs ≠ []
  | .date _ => true
  | .rat q => q ≠ RatF.num 0

/-- Promote a stored JSON scalar to a cell. -/
def cellOfS : SVal → Cell
  | .s s => Cell.str s
  | .i n => Cell.int n

/-- `x.get(k)` on a cell: only a dict has `.get`; on any other value the
attribute access raises `AttributeError` (in particular on the float NaN
that pandas substitutes for a missing key).  A key missing from the dict
yields `None`. -/
def cellGet (x : Cell) (k : String) : Except String Cell :=
  match x with
  | .obj kvs =>
      .ok (match kvs.find? (fun kv => kv.1 = k) with
           | some kv => cellOfS kv.2
           | Option.none => Cell.none)
  | _ => .error "AttributeError: object has no attribute get"

/-- `df[src].apply(lambda x: x.get(k) if x else None)` followed by
`df[new] = ...` (seatreport.py lines 38-39 and 43-45), guarded by
`if src in df.columns`: skipped entirely when the source column is absent. -/
def extractCol (df : DataFrame) (src newCol k : String) : Except String DataFrame :=
  match colIdx df src with
  | Option.none => .ok df
  | some i => do
      let cells ← df.rows.mapM (fun r =>
        let x := r.getD i Cell.nan
        if cellTruthy x then cellGet x k else .ok Cell.none)
      pure (setCol df newCol cells)

/-- `pd.to_datetime` on one seat cell: strings parse (raising on failure),
`None`/NaN become `NaT`, datetimes pass through. -/
def to_datetime_cell : Cell → Except String Cell
  | .str s => (parseDateTime s).map Cell.date
  | .none => .ok (Cell.date .nat)
  | .nan => .ok (Cell.date .nat)
  | .date d => .ok (Cell.date d)
  | _ => .error "to_datetime: invalid type"

/-- `df[col] = pd.to_datetime(df[col])` guarded by `if col in df.columns`
(seatreport.py lines 31-34). -/
def convertDateCol (df : DataFrame) (c : String) : Except String DataFrame :=
  match colIdx df c with
  | Option.none => .ok df
  | some i => do
      let rows ← df.rows.mapM (fun r => do
        let v ← to_datetime_cell (r.getD i Cell.nan)
        pure (r.set i v))
      pure ⟨df.columns, rows⟩

/-- `process_data(json_data)` of seatreport.py lines 24-50: build the frame
from the seats array, return it unchanged if empty, convert the date
columns, derive the team and assignee columns, broadcast
`total_available_seats` from the root-level count. -/
def process_data (p : SeatPayload) : Except String DataFrame := do
  let df := mkDataFrame (p.seats.getD [])
  if df.rows.isEmpty ∨ df.columns.isEmpty then return df
  let df ← convertDateCol df "created_at"
  let df ← convertDateCol df "updated_at"
  let df ← convertDateCol df "last_activity_at"
  let df ← extractCol df "assigning_team" "team_name" "name"
  let df ← extractCol df "assigning_team" "team_id" "id"
  let df ← extractCol df "assignee" "user_login" "login"
  let df ← extractCol df "assignee" "user_type" "type"
  let df ← extractCol df "assignee" "user_id" "id"
  let n := p.total_seats.getD 0
  pure (setCol df "total_available_seats" (df.rows.map (fun _ => Cell.int n)))

/-- pandas `notna` on one cell: `None`, NaN and `NaT` are missing. -/
def notnaCell : Cell → Bool
  | .nan => false
  | .none => false
  | .date .nat => false
  | _ => true

/-- `filtered_df['last_activity_at'].notna().sum()` (seatreport.py line
117): the active-user count; subscripting a missing column raises
`KeyError`. -/
def active_users (df : DataFrame) : Except String Nat :=
  (getColCells df "last_activity_at").map (fun cells => (cells.filter notnaCell).length)

/-! ### Spec-side column schemas

These three definitions transcribe the output column schemas stated in §3 of
the specification (Daily Summary row, Chat row, Completion row); they are the
spec's words, to be compared against what the embedded code produces. -/

/-- The spec's daily-summary schema: date, the two user counts, and the four
per-feature-block engaged-user columns. -/
def summary_schema_spec : List String :=
  ["date", "total_active_users", "total_engaged_users",
   "copilot_ide_chat.total_engaged_users",
   "copilot_ide_code_completions.total_engaged_users",
   "copilot_dotcom_chat.total_engaged_users",
   "copilot_dotcom_pull_requests.total_engaged_users"]

/-- The spec's chat-row schema (8 columns). -/
def chat_schema_spec : List String :=
  ["date", "editor", "model", "is_custom_model", "total_chats",
   "total_engaged_users", "total_chat_copy_events", "total_chat_insertion_events"]

/-- The spec's completion-row schema (10 columns). -/
def completion_schema_spec : List String :=
  ["date", "editor", "model", "is_custom_model", "language",
   "total_engaged_users", "total_code_acceptances", "total_code_suggestions",
   "total_code_lines_accepted", "total_code_lines_suggested"]

/-! ### Concrete inputs used by the claims -/

/-- The single usage record of the spec's end-to-end scenario (§8.7). -/
def c9rec : UsageRecord :=
  { date := some "2024-01-01", total_active_users := some 100,
    total_engaged_users := some 40,
    copilot_ide_chat := some
      { total_engaged_users := some 20,
        editors := some [{ name := some "vscode",
                           models := some [{ name := some "gpt-4",
                                             total_chats := some 50,
                                             total_engaged_users := some 20 }] }] } }

/-- A record exercising both IDE feature blocks, so that all three output
tables are non-empty. -/
def fullRec : UsageRecord :=
  { c9rec with
    copilot_ide_code_completions := some
      { total_engaged_users := some 10,
        editors := some [{ name := some "vscode",
                           models := some [{ name := some "gpt-4",
                                             languages := some
                                               [{ name := some "python",
                                                  total_code_suggestions := some 10,
                                                  total_code_acceptances := some 5 }] }] }] } }

/-- A record whose date field cannot be parsed as a date. -/
def badRec : UsageRecord := { date := some "not-a-date" }

/-- A record with no `copilot_ide_chat` block and a parseable date. -/
def noChatRec : UsageRecord :=
  { date := some "2024-01-01", total_active_users := some 7 }

/-- The seat payload of the spec's scenario §8.8: one seat whose
`last_activity_at` key is entirely absent. -/
def c6payload : SeatPayload :=
  { total_seats := some 10,
    seats := some [[("created_at", Cell.str "2024-01-01T00:00:00Z"),
                    ("assignee", Cell.obj [("login", SVal.s "alice"), ("type", SVal.s "User")]),
                    ("assigning_team", Cell.obj [("name", SVal.s "core")])]] }

/-- Two seats, `assigning_team` present on the first and absent from the
second: pandas stores float NaN in the second row's cell. -/
def c4mixed : SeatPayload :=
  { seats := some [[("created_at", Cell.str "2024-01-01T00:00:00Z"),
                    ("assigning_team", Cell.obj [("name", SVal.s "core")])],
                   [("created_at", Cell.str "2024-01-02T00:00:00Z")]] }

/-- One seat whose `assigning_team` and `assignee` keys are present with
JSON null values. -/
def c4null : SeatPayload :=
  { seats := some [[("created_at", Cell.str "2024-01-01T00:00:00Z"),
                    ("assigning_team", Cell.none), ("assignee", Cell.none)]] }

/-- One seat with neither an `assigning_team` nor an `assignee` key. -/
def c4absent : SeatPayload :=
  { seats := some [[("created_at", Cell.str "2024-01-01T00:00:00Z")]] }

/-- A completion table with one language whose rows have
`total_code_suggestions = 0`: acceptances 5 (rate `+inf`) and acceptances 0
(rate NaN). -/
def c1comp : DataFrame :=
  mkDataFrame
    [[("date", Cell.date (.dt 2024 1 1 0)), ("language", Cell.str "python"),
      ("total_code_acceptances", Cell.int 5), ("total_code_suggestions", Cell.int 0)],
     [("date", Cell.date (.dt 2024 1 2 0)), ("language", Cell.str "python"),
      ("total_code_acceptances", Cell.int 0), ("total_code_suggestions", Cell.int 0)]]

/-- Group A rows 10, 20, 30 before group B row 5 (spec scenario §8.5). -/
def c7a : DataFrame :=
  mkDataFrame [[("editor", Cell.str "A"), ("total_chats", Cell.int 10)],
               [("editor", Cell.str "A"), ("total_chats", Cell.int 20)],
               [("editor", Cell.str "A"), ("total_chats", Cell.int 30)],
               [("editor", Cell.str "B"), ("total_chats", Cell.int 5)]]

/-- The same rows in a different input order. -/
def c7b : DataFrame :=
  mkDataFrame [[("editor", Cell.str "B"), ("total_chats", Cell.int 5)],
               [("editor", Cell.str "A"), ("total_chats", Cell.int 30)],
               [("editor", Cell.str "A"), ("total_chats", Cell.int 10)],
               [("editor", Cell.str "A"), ("total_chats", Cell.int 20)]]

/-- A one-row summary frame for exercising `create_visualizations`. -/
def c5df : DataFrame :=
  mkDataFrame [[("date", Cell.date (.dt 2024 1 1 0)), ("total_active_users", Cell.int 100)]]

/-- A one-row chat frame for exercising `create_visualizations`. -/
def c5chat : DataFrame :=
  mkDataFrame [[("date", Cell.date (.dt 2024 1 1 0)), ("editor", Cell.str "vscode")]]

/-- A one-row completion frame for exercising `create_visualizations`. -/
def c5comp : DataFrame :=
  mkDataFrame [[("date", Cell.date (.dt 2024 1 1 0)), ("language", Cell.str "python"),
                ("total_code_acceptances", Cell.int 0), ("total_code_suggestions", Cell.int 0)]]

/-! ### Claim theorems -/

/-- C9: for the spec's single-record end-to-end input, `flatten_data` yields
a one-row daily-summary table with total_active_users 100,
total_engaged_users 40 and copilot_ide_chat.total_engaged_users 20, and a
one-row chat table with editor "vscode", model "gpt-4" and total_chats 50
(the completion table is empty, with no columns). -/
theorem C9_end_to_end :
    flatten_data [c9rec] = Except.ok
      (⟨summary_schema_spec,
        [[Cell.date (.dt 2024 1 1 0), Cell.int 100, Cell.int 40, Cell.int 20,
          Cell.int 0, Cell.int 0, Cell.int 0]]⟩,
       ⟨chat_schema_spec,
        [[Cell.date (.dt 2024 1 1 0), Cell.str "vscode", Cell.str "gpt-4",
          Cell.bool false, Cell.int 50, Cell.int 20, Cell.int 0, Cell.int 0]]⟩,
       ⟨[], []⟩) := by decide

/-- C2 counterexample: on the empty input sequence `flatten_data` returns
three frames with zero rows but also with ZERO columns — the column lists
are empty, not the schemas of the data model (pandas infers columns from the
row dicts, and there are none). -/
theorem C2_empty_schema_cex :
    flatten_data [] = Except.ok (⟨[], []⟩, ⟨[], []⟩, ⟨[], []⟩) ∧
    (DataFrame.mk [] []).columns ≠ summary_schema_spec ∧
    (DataFrame.mk [] []).columns ≠ chat_schema_spec ∧
    (DataFrame.mk [] []).columns ≠ completion_schema_spec := by decide

/-- C2 amended: on the empty input sequence `flatten_data` returns without
error three tables with zero rows and EMPTY column schemas; the full data
model schemas appear exactly when rows exist (here: a record populating all
three tables yields exactly the three spec schemas as columns). -/
theorem C2_empty_schema :
    flatten_data [] = Except.ok (⟨[], []⟩, ⟨[], []⟩, ⟨[], []⟩) ∧
    (flatten_data [fullRec]).map
        (fun t => (t.1.columns, t.2.1.columns, t.2.2.columns)) =
      Except.ok (summary_schema_spec, chat_schema_spec, completion_schema_spec) := by
  decide

/-- C7: the group-by-with-total-row operation appends exactly one synthetic
row, always last, whose categorical cell is the sentinel "TOTAL" and whose
numeric cells are the column-wise sums of the grouped rows; on the rows
[10, 20, 30] in group A and [5] in group B the total is 65 in either input
order. -/
theorem C7_group_total :
    (∀ (df : DataFrame) (key : String) (numCols : List String),
        (group_with_total df key numCols).rows =
          (agg_sum_by df key numCols).rows ++
            [Cell.str "TOTAL" ::
               numCols.map (fun c => Cell.int (intColSum (agg_sum_by df key numCols) c))]) ∧
    group_with_total c7a "editor" ["total_chats"] =
      ⟨["editor", "total_chats"],
       [[Cell.str "A", Cell.int 60], [Cell.str "B", Cell.int 5],
        [Cell.str "TOTAL", Cell.int 65]]⟩ ∧
    group_with_total c7b "editor" ["total_chats"] =
      ⟨["editor", "total_chats"],
       [[Cell.str "A", Cell.int 60], [Cell.str "B", Cell.int 5],
        [Cell.str "TOTAL", Cell.int 65]]⟩ :=
  ⟨fun _ _ _ => rfl, by decide, by decide⟩

/-- C6 counterexample: on the spec's seat payload (whose single seat has no
`last_activity_at` key at all) the produced seat table has NO
`last_activity_at` column — the value is not a null cell — and the activity
metric `filtered_df['last_activity_at'].notna().sum()` raises a `KeyError`
instead of counting the row as inactive (it does not return 0). -/
theorem C6_seat_example_cex :
    (process_data c6payload).map (fun df => df.columns.contains "last_activity_at") =
      Except.ok false ∧
    (process_data c6payload).bind active_users =
      Except.error "KeyError: last_activity_at" ∧
    (process_data c6payload).bind active_users ≠ Except.ok 0 := by decide

/-- C6 amended: the payload yields a one-row seat table with
total_available_seats 10, team_name "core" and user_login "alice", but the
`last_activity_at` column is entirely absent (not null), so the activity
metric raises a `KeyError` rather than reporting 0 active users. -/
theorem C6_seat_example :
    process_data c6payload = Except.ok
      ⟨["created_at", "assignee", "assigning_team", "team_name", "team_id",
        "user_login", "user_type", "user_id", "total_available_seats"],
       [[Cell.date (.dt 2024 1 1 0),
         Cell.obj [("login", SVal.s "alice"), ("type", SVal.s "User")],
         Cell.obj [("name", SVal.s "core")],
         Cell.str "core", Cell.none, Cell.str "alice", Cell.str "User",
         Cell.none, Cell.int 10]]⟩ ∧
    (process_data c6payload).bind active_users =
      Except.error "KeyError: last_activity_at" := by decide

/-- C4 counterexample: `process_data` does NOT always complete with null
derived columns when a seat's `assigning_team` is absent.  With the key
present on one seat and absent from another, the absent cell is the float
NaN, which is truthy in Python, so `x.get('name')` raises AttributeError;
with the key absent from every seat, the frame has no `assigning_team`
column and the derived team columns are never created at all. -/
theorem C4_seat_absent_cex :
    process_data c4mixed = Except.error "AttributeError: object has no attribute get" ∧
    (process_data c4absent).map (fun df => df.columns.contains "team_name") =
      Except.ok false := by decide

/-- C4 amended: when a seat's `assigning_team`/`assignee` key is present
with a JSON null value, the derived columns are set to None without
raising; when the key is absent from every seat, the derived columns are
not created at all; when it is absent from one seat but present on another,
`process_data` raises an AttributeError (the missing cell is a truthy float
NaN with no `.get`). -/
theorem C4_seat_absent :
    process_data c4null = Except.ok
      ⟨["created_at", "assigning_team", "assignee", "team_name", "team_id",
        "user_login", "user_type", "user_id", "total_available_seats"],
       [[Cell.date (.dt 2024 1 1 0), Cell.none, Cell.none, Cell.none,
         Cell.none, Cell.none, Cell.none, Cell.none, Cell.int 0]]⟩ ∧
    process_data c4absent = Except.ok
      ⟨["created_at", "total_available_seats"],
       [[Cell.date (.dt 2024 1 1 0), Cell.int 0]]⟩ ∧
    process_data c4mixed =
      Except.error "AttributeError: object has no attribute get" := by decide

/-- C1 counterexample: a completion row with total_code_acceptances 5 and
total_code_suggestions 0 gets acceptance rate `+inf` — a number-like float,
not the NaN missing marker — and the grouped mean INCLUDES it: the mean for
"python" over the rates {+inf, NaN} is `+inf`, not NaN-excluded-aside 0/1
values (only the NaN row is excluded from sum and count). -/
theorem C1_acceptance_rate_cex :
    accRateVal (Cell.int 5) (Cell.int 0) = RatF.inf ∧
    RatF.inf ≠ RatF.nan ∧
    acceptance_rate_by_language (add_acceptance_rate c1comp) =
      [("python", RatF.inf)] ∧
    meanSkipNA [RatF.inf, RatF.nan] = RatF.inf := by decide

/-- C5 counterexample: `create_visualizations` mutates the tables passed to
it — the completion frame comes back with an extra `acceptance_rate`
column and the summary frame with extra `day_of_week` and `hour` columns,
so the flat tables are NOT unchanged after the aggregation layer runs. -/
theorem C5_purity_cex :
    (create_visualizations c5df c5chat c5comp).2.2.columns ≠ c5comp.columns ∧
    (create_visualizations c5df c5chat c5comp).1.columns ≠ c5df.columns := by decide

/-! ### Totality of the flattener -/

/-- One loop iteration succeeds exactly when the record's date parses. -/
lemma flattenRecord_isOk (r : UsageRecord) :
    (flattenRecord r).isOk = (to_datetime r.date).isOk := by
  unfold flattenRecord
  cases h : to_datetime r.date <;> simp [h, Except.isOk, Except.toBool, Except.bind, bind, pure, Except.pure]

/-- The whole loop succeeds exactly when every record's date parses. -/
lemma flattenRecords_isOk :
    ∀ l : List UsageRecord,
      (flattenRecords l).isOk = l.all (fun r => (to_datetime r.date).isOk)
  | [] => by simp [flattenRecords, Except.isOk, Except.toBool]
  | r :: rs => by
      have ih := flattenRecords_isOk rs
      rw [flattenRecords, List.all_cons]
      cases h1 : flattenRecord r with
      | error e =>
          have hb : (to_datetime r.date).isOk = false := by
            rw [← flattenRecord_isOk, h1]; rfl
          rw [hb]
          simp only [h1, bind, Except.bind, Bool.false_and]
          rfl
      | ok t =>
          have hr : (to_datetime r.date).isOk = true := by
            rw [← flattenRecord_isOk, h1]; rfl
          rw [hr]
          cases h2 : flattenRecords rs with
          | error e =>
              rw [h2] at ih
              rw [← ih]
              simp only [h1, h2, bind, Except.bind, Bool.true_and]
          | ok ts =>
              rw [h2] at ih
              rw [← ih]
              simp only [h1, h2, bind, Except.bind, Bool.true_and]
              rfl

/-- `flatten_data` succeeds exactly when every record's date parses. -/
lemma flatten_data_isOk (data : List UsageRecord) :
    (flatten_data data).isOk = data.all (fun r => (to_datetime r.date).isOk) := by
  unfold flatten_data
  have h := flattenRecords_isOk data
  cases h2 : flattenRecords data with
  | error e =>
      rw [h2] at h
      rw [← h]
      simp only [h2, bind, Except.bind]
      rfl
  | ok ts =>
      rw [h2] at h
      rw [← h]
      simp only [h2, bind, Except.bind]
      rfl

/-- C3: on any input whose dates are absent or parseable, `flatten_data`
completes without raising; a record with no `copilot_ide_chat` block
contributes zero chat rows and a summary cell
`copilot_ide_chat.total_engaged_users = 0`; a record with no completions
block contributes zero completion rows; an absent numeric field defaults to
0; and the fully-empty record flattens to an all-zero summary row (with a
NaT date) and empty chat/completion tables. -/
theorem C3_missing_fields (data : List UsageRecord)
    (hdate : ∀ r ∈ data, (to_datetime r.date).isOk = true) :
    (flatten_data data).isOk = true ∧
    (∀ (d : PDate) (r : UsageRecord), r.copilot_ide_chat = Option.none →
        chatRows d r = [] ∧
        lookupCell (summaryRow d r) "copilot_ide_chat.total_engaged_users" = Cell.int 0) ∧
    (∀ (d : PDate) (r : UsageRecord), r.copilot_ide_code_completions = Option.none →
        compRows d r = []) ∧
    (∀ (d : PDate) (r : UsageRecord), r.total_active_users = Option.none →
        lookupCell (summaryRow d r) "total_active_users" = Cell.int 0) ∧
    flatten_data [{}] = Except.ok
      (⟨summary_schema_spec,
        [[Cell.date .nat, Cell.int 0, Cell.int 0, Cell.int 0, Cell.int 0,
          Cell.int 0, Cell.int 0]]⟩, ⟨[], []⟩, ⟨[], []⟩) := by
  refine ⟨?_, ?_, ?_, ?_, by decide⟩
  · rw [flatten_data_isOk]
    exact List.all_eq_true.mpr hdate
  · intro d r h
    constructor
    · simp [chatRows, h, emptyFB]
    · simp [summaryRow, lookupCell, h, List.find?, emptyFB]
  · intro d r h
    simp [compRows, h, emptyFB]
  · intro d r h
    simp [summaryRow, lookupCell, h, List.find?, emptyFB]

/-- C3 witness: a concrete record with no `copilot_ide_chat` block flattens
without error and contributes no chat rows. -/
theorem C3_missing_fields_witness :
    (flatten_data [noChatRec]).isOk = true ∧
    chatRows (.dt 2024 1 1 0) noChatRec = [] :=
  ⟨(C3_missing_fields [noChatRec] (by decide)).1,
   ((C3_missing_fields [noChatRec] (by decide)).2.1 (.dt 2024 1 1 0) noChatRec rfl).1⟩

/-- C10: if any record's date field fails to parse, `flatten_data` raises
(returns an error), so no output tables are produced at all: the whole
batch aborts and no partially built table reaches the caller. -/
theorem C10_bad_date_aborts (data : List UsageRecord) (r : UsageRecord)
    (hmem : r ∈ data) (hbad : (to_datetime r.date).isOk = false) :
    ∃ msg, flatten_data data = Except.error msg := by
  have hall : data.all (fun s => (to_datetime s.date).isOk) = false := by
    cases h : data.all (fun s => (to_datetime s.date).isOk) with
    | false => rfl
    | true =>
        have := List.all_eq_true.mp h r hmem
        rw [hbad] at this
        exact absurd this (by simp)
  have hok := flatten_data_isOk data
  rw [hall] at hok
  cases hfd : flatten_data data with
  | ok t => rw [hfd] at hok; simp [Except.isOk, Except.toBool] at hok
  | error msg => exact ⟨msg, rfl⟩

/-- C10 witness: the single-record input with date "not-a-date" makes
`flatten_data` return an error. -/
theorem C10_bad_date_witness :
    (to_datetime badRec.date).isOk = false ∧
    ∃ msg, flatten_data [badRec] = Except.error msg :=
  ⟨by decide,
   C10_bad_date_aborts [badRec] badRec (List.mem_cons_self badRec []) (by decide)⟩

/-- C1 amended: for a completion row, the acceptance rate is
`acceptances / suggestions * 100` when the denominator is non-zero; when the
denominator is 0 the float result is NaN only if the numerator is also 0,
and otherwise is `+inf` / `-inf` according to the numerator's sign (a
non-null value that subsequent means keep); the NaN-skipping mean drops NaN
entries from both the sum and the count. -/
theorem C1_acceptance_rate :
    (∀ acc sugg : Int, sugg ≠ 0 →
        accRateVal (Cell.int acc) (Cell.int sugg) =
          RatF.num ((acc : ℚ) / (sugg : ℚ) * 100)) ∧
    (∀ acc : Int, accRateVal (Cell.int acc) (Cell.int 0) =
        if acc = 0 then RatF.nan
        else if 0 < acc then RatF.inf else RatF.ninf) ∧
    (∀ xs : List RatF, meanSkipNA (RatF.nan :: xs) = meanSkipNA xs) := by
  refine ⟨?_, ?_, ?_⟩
  · intro acc sugg h
    have hq : ((sugg : ℚ)) ≠ 0 := Int.cast_ne_zero.mpr h
    simp [accRateVal, ratOfCell, ratDiv, ratMulQ, hq]
  · intro acc
    rcases lt_trichotomy acc 0 with h | h | h
    · have h1 : ((acc : ℚ)) < 0 := by exact_mod_cast h
      have h2 : ¬ ((0 : ℚ) < (acc : ℚ)) := by linarith
      have h3 : acc ≠ 0 := by omega
      have h4 : ¬ (0 : ℤ) < acc := by omega
      simp [accRateVal, ratOfCell, ratDiv, ratMulQ, h1, h2, h3, h4,
        not_lt.mpr (le_of_lt h1)]
    · subst h
      simp [accRateVal, ratOfCell, ratDiv, ratMulQ]
    · have h1 : (0 : ℚ) < (acc : ℚ) := by exact_mod_cast h
      have h3 : acc ≠ 0 := by omega
      simp [accRateVal, ratOfCell, ratDiv, ratMulQ, h1, h3, h]
  · intro xs
    simp [meanSkipNA, List.filter_cons]

/-- C1 witness: a finite acceptance rate at acceptances 1, suggestions 10,
and the NaN-exclusion of the mean at a concrete list. -/
theorem C1_acceptance_rate_witness :
    accRateVal (Cell.int 1) (Cell.int 10) =
      RatF.num (((1 : Int) : ℚ) / ((10 : Int) : ℚ) * 100) ∧
    meanSkipNA [RatF.nan, RatF.num 7] = meanSkipNA [RatF.num 7] :=
  ⟨C1_acceptance_rate.1 1 10 (by decide),
   C1_acceptance_rate.2.2 [RatF.num 7]⟩

/-- Timestamp comparison is reflexive on real (non-NaT) dates. -/
lemma pdLe_refl_dt (y m d h : Nat) : pdLe (.dt y m d h) (.dt y m d h) = true := by
  simp [pdLe]

/-- C8: the date-range filter keeps exactly the rows whose date cell `d`
satisfies `start <= d <= end` (both ends inclusive: a row dated exactly on
either bound passes the mask), and the same bounds are applied to all three
usage tables, keeping them date-aligned. -/
theorem C8_date_filter :
    (∀ (df : DataFrame) (s e : PDate) (r : List Cell),
        r ∈ (filter_by_date df s e).rows ↔
          r ∈ df.rows ∧ dateInRange s e (rowCell df r "date") = true) ∧
    (∀ s e : PDate, pdLe s e = true →
        dateInRange s e (Cell.date s) = true ∧
        dateInRange s e (Cell.date e) = true) ∧
    (∀ (t : DataFrame × DataFrame × DataFrame) (s e : PDate),
        filter_usage_tables t s e =
          (filter_by_date t.1 s e, filter_by_date t.2.1 s e,
           filter_by_date t.2.2 s e)) := by
  refine ⟨?_, ?_, fun t s e => rfl⟩
  · intro df s e r
    simp [filter_by_date, List.mem_filter]
  · intro s e h
    cases s with
    | nat => simp [pdLe] at h
    | dt y m d hh =>
        cases e with
        | nat => simp [pdLe] at h
        | dt y' m' d' hh' =>
            constructor <;> simp [dateInRange, h, pdLe_refl_dt]

/-- C8 witness: both boundary dates of the January 2024 range pass the
range mask. -/
theorem C8_date_filter_witness :
    dateInRange (.dt 2024 1 1 0) (.dt 2024 1 31 0) (Cell.date (.dt 2024 1 1 0)) = true ∧
    dateInRange (.dt 2024 1 1 0) (.dt 2024 1 31 0) (Cell.date (.dt 2024 1 31 0)) = true :=
  C8_date_filter.2.1 (.dt 2024 1 1 0) (.dt 2024 1 31 0) (by decide)

/-! ### The mutation footprint of create_visualizations -/

/-- Every row of the frame has one cell per column. -/
def alignedRows (df : DataFrame) : Prop :=
  ∀ r ∈ df.rows, r.length = df.columns.length

/-- Whether a cell is a parsed timestamp. -/
def isDateCell : Cell → Bool
  | .date _ => true
  | _ => false

/-- Every row's `date` cell is already a parsed timestamp. -/
def datesOkB (df : DataFrame) : Prop :=
  ∀ r ∈ df.rows, isDateCell (rowCell df r "date") = true

/-- Writing back the element already at an index leaves a list unchanged. -/
lemma set_getD_self {α : Type} : ∀ (l : List α) (i : Nat) (d : α),
    l.set i (l.getD i d) = l
  | [], _, _ => rfl
  | _ :: _, 0, _ => rfl
  | x :: xs, i + 1, d => by
      simp only [List.set_cons_succ, List.getD_cons_succ, set_getD_self xs i d]

/-- A map that fixes every member is the identity. -/
lemma map_self_of_mem {α : Type} {f : α → α} {l : List α}
    (h : ∀ x ∈ l, f x = x) : l.map f = l :=
  (List.map_congr_left h).trans (List.map_id l)

/-- Zipping a list with its own image and mapping collapses to one map. -/
lemma zip_self_map {α β γ : Type} (f : α → β) (g : α × β → γ) :
    ∀ l : List α, (l.zip (l.map f)).map g = l.map (fun x => g (x, f x))
  | [] => rfl
  | x :: xs => by
      simp only [List.map_cons, List.zip_cons_cons, zip_self_map f g xs]

/-- A found column index is in range. -/
lemma colIdx_lt_length {df : DataFrame} {c : String} {i : Nat}
    (h : colIdx df c = some i) : i < df.columns.length :=
  (List.findIdx?_eq_some_iff_findIdx_eq.mp h).1

/-- An absent column name has no index. -/
lemma colIdx_fresh {df : DataFrame} {c : String} (h : c ∉ df.columns) :
    colIdx df c = Option.none := by
  refine List.findIdx?_eq_none_iff.mpr ?_
  intro x hx
  simp only [decide_eq_false_iff_not]
  rintro rfl
  exact h hx

/-- Coercing an already-parsed date column is the identity. -/
lemma coerceDateCol_id (df : DataFrame) (hd : datesOkB df) :
    coerceDateCol df = df := by
  unfold coerceDateCol
  cases h : colIdx df "date" with
  | none => rfl
  | some i =>
      have hrows :
          df.rows.map (fun r => r.set i (to_datetime_coerce (r.getD i Cell.nan))) = df.rows := by
        apply map_self_of_mem
        intro r hr
        have hcell : rowCell df r "date" = r.getD i Cell.nan := by
          unfold rowCell
          rw [h]
        have hdate := hd r hr
        rw [hcell] at hdate
        cases hc : r.getD i Cell.nan with
        | date d =>
            simp only [to_datetime_coerce]
            rw [← hc, set_getD_self]
        | str s => rw [hc] at hdate; exact absurd hdate (by simp [isDateCell])
        | int n => rw [hc] at hdate; exact absurd hdate (by simp [isDateCell])
        | bool b => rw [hc] at hdate; exact absurd hdate (by simp [isDateCell])
        | rat q => rw [hc] at hdate; exact absurd hdate (by simp [isDateCell])
        | none => rw [hc] at hdate; exact absurd hdate (by simp [isDateCell])
        | nan => rw [hc] at hdate; exact absurd hdate (by simp [isDateCell])
        | obj kvs => rw [hc] at hdate; exact absurd hdate (by simp [isDateCell])
      cases df with
      | mk cols rows => simpa using hrows

/-- Assigning a fresh column appends it on the right. -/
lemma setCol_fresh (df : DataFrame) (c : String) (f : List Cell → Cell)
    (h : c ∉ df.columns) :
    setCol df c (df.rows.map f) =
      ⟨df.columns ++ [c], df.rows.map (fun r => r ++ [f r])⟩ := by
  unfold setCol
  rw [colIdx_fresh h]
  exact congrArg (DataFrame.mk (df.columns ++ [c]))
    (zip_self_map f (fun rc => rc.1 ++ [rc.2]) df.rows)

instance (df : DataFrame) : Decidable (alignedRows df) :=
  inferInstanceAs (Decidable (∀ r ∈ df.rows, r.length = df.columns.length))

instance (df : DataFrame) : Decidable (datesOkB df) :=
  inferInstanceAs (Decidable (∀ r ∈ df.rows, isDateCell (rowCell df r "date") = true))

/-- C5 amended: the aggregation layer is NOT mutation-free on its inputs:
`create_visualizations` hands back the summary frame with exactly the two
extra columns `day_of_week` and `hour` appended and the completion frame
with exactly the extra column `acceptance_rate` appended (all pre-existing
columns and cell values are preserved, as the row prefixes show), while the
chat frame is returned unchanged; the group-by/total-row operations and the
date filter build new frames from their input.  Hypotheses: rows are
aligned with the columns, the `date` cells are already parsed timestamps,
and the added column names are not already present. -/
theorem C5_purity (df chat comp : DataFrame)
    (ha1 : alignedRows df) (ha3 : alignedRows comp)
    (hd1 : datesOkB df) (hd2 : datesOkB chat) (hd3 : datesOkB comp)
    (f1 : "day_of_week" ∉ df.columns) (f2 : "hour" ∉ df.columns)
    (f3 : "acceptance_rate" ∉ comp.columns) :
    (create_visualizations df chat comp).2.1 = chat ∧
    (create_visualizations df chat comp).2.2.columns =
      comp.columns ++ ["acceptance_rate"] ∧
    (create_visualizations df chat comp).2.2.rows.map
        (fun r => r.take comp.columns.length) = comp.rows ∧
    (create_visualizations df chat comp).1.columns =
      df.columns ++ ["day_of_week", "hour"] ∧
    (create_visualizations df chat comp).1.rows.map
        (fun r => r.take df.columns.length) = df.rows := by
  have hc : coerceDateCol chat = chat := coerceDateCol_id chat hd2
  have hdf : coerceDateCol df = df := coerceDateCol_id df hd1
  have hcomp : coerceDateCol comp = comp := coerceDateCol_id comp hd3
  have key : create_visualizations df chat comp =
      (add_heatmap_cols df, chat, add_acceptance_rate comp) := by
    simp only [create_visualizations]
    rw [hdf, hc, hcomp]
  have eacc : add_acceptance_rate comp =
      ⟨comp.columns ++ ["acceptance_rate"],
       comp.rows.map (fun r =>
         r ++ [Cell.rat (accRateVal (rowCell comp r "total_code_acceptances")
                          (rowCell comp r "total_code_suggestions"))])⟩ := by
    simp only [add_acceptance_rate]
    exact setCol_fresh comp "acceptance_rate" _ f3
  have edf1 : setCol df "day_of_week"
        (df.rows.map (fun r => dayNameCell (rowCell df r "date"))) =
      ⟨df.columns ++ ["day_of_week"],
       df.rows.map (fun r => r ++ [dayNameCell (rowCell df r "date")])⟩ :=
    setCol_fresh df "day_of_week" _ f1
  have f2' : "hour" ∉
      (DataFrame.mk (df.columns ++ ["day_of_week"])
        (df.rows.map (fun r => r ++ [dayNameCell (rowCell df r "date")]))).columns := by
    simp only [List.mem_append, List.mem_singleton]
    rintro (hmem | hmem)
    · exact f2 hmem
    · exact absurd hmem (by decide)
  have edf2 := setCol_fresh
    ⟨df.columns ++ ["day_of_week"],
     df.rows.map (fun r => r ++ [dayNameCell (rowCell df r "date")])⟩
    "hour" (fun r => hourCell (rowCell
      ⟨df.columns ++ ["day_of_week"],
       df.rows.map (fun r2 => r2 ++ [dayNameCell (rowCell df r2 "date")])⟩ r "date")) f2'
  have eheat : add_heatmap_cols df =
      ⟨(df.columns ++ ["day_of_week"]) ++ ["hour"],
       (df.rows.map (fun r => r ++ [dayNameCell (rowCell df r "date")])).map
         (fun r => r ++ [hourCell (rowCell
           ⟨df.columns ++ ["day_of_week"],
            df.rows.map (fun r2 => r2 ++ [dayNameCell (rowCell df r2 "date")])⟩ r "date")])⟩ := by
    simp only [add_heatmap_cols]
    rw [edf1]
    exact edf2
  rw [key]
  refine ⟨rfl, ?_, ?_, ?_, ?_⟩
  · rw [eacc]
  · rw [eacc]
    simp only [List.map_map]
    apply map_self_of_mem
    intro r hr
    simp only [Function.comp_apply]
    exact List.take_left' (ha3 r hr)
  · rw [eheat]
    simp [List.append_assoc]
  · rw [eheat]
    simp only [List.map_map]
    apply map_self_of_mem
    intro r hr
    simp only [Function.comp_apply, List.append_assoc]
    exact List.take_left' (ha1 r hr)

/-- C5 witness: at the concrete one-row frames, the two mutated frames come
back with exactly the appended columns. -/
theorem C5_purity_witness :
    (create_visualizations c5df c5chat c5comp).2.2.columns =
      c5comp.columns ++ ["acceptance_rate"] ∧
    (create_visualizations c5df c5chat c5comp).1.columns =
      c5df.columns ++ ["day_of_week", "hour"] :=
  ⟨(C5_purity c5df c5chat c5comp (by decide) (by decide) (by decide) (by decide)
      (by decide) (by decide) (by decide) (by decide)).2.1,
   (C5_purity c5df c5chat c5comp (by decide) (by decide) (by decide) (by decide)
      (by decide) (by decide) (by decide) (by decide)).2.2.2.1⟩

end Gcpy
